import Mathlib

/-!
Shallow embedding of the learning-progress synchronization engine of the
Aurebesh app: the client-side statistics service (learningDatabase.ts),
the SQL aggregate table, trigger and reader (queries/learning_statistics.sql),
and the ReadScreen session state machine (screens/ReadScreen.tsx).

Timestamps are abstract `Nat` instants; user ids are `Nat`; the store models
the rows belonging to one user (the schema keys all statistics rows by
`user_id`, and every operation under verification touches a single user).
-/

namespace Aurebesh

/-- Difficulty tier of a practice run, the `'easy' | 'medium' | 'hard'`
union type used throughout learningDatabase.ts and the SQL CHECK constraint. -/
inductive Difficulty where
  | easy
  | medium
  | hard
deriving DecidableEq, Repr

/-- One row of the `learning_statistics` table (learning_statistics.sql,
lines 21-41): the durable per-user Aggregate. Counter columns have SQL
`DEFAULT 0`; timestamps are abstract instants. -/
structure LearningStats where
  total_sessions : Nat
  total_questions_attempted : Nat
  total_questions_correct : Nat
  best_streak : Nat
  current_streak : Nat
  best_score : Nat
  total_time_spent_seconds : Nat
  easy_questions_correct : Nat
  medium_questions_correct : Nat
  hard_questions_correct : Nat
  easy_questions_attempted : Nat
  medium_questions_attempted : Nat
  hard_questions_attempted : Nat
  first_session_date : Nat
  last_session_date : Nat
deriving DecidableEq, Repr

/-- One row of the `learning_sessions` table (learning_statistics.sql,
lines 5-18): an immutable session-history record. `session_end` and
`session_duration_seconds` are nullable in the schema. -/
structure SessionRow where
  user_id : Nat
  session_start : Nat
  session_end : Option Nat
  difficulty : Difficulty
  questions_attempted : Nat
  questions_correct : Nat
  max_streak : Nat
  final_score : Nat
  session_duration_seconds : Option Nat
deriving DecidableEq, Repr

/-- The durable store for one user: the list of `learning_sessions` rows in
insertion order, and the user's `learning_statistics` row when it exists
(the table has a UNIQUE constraint on `user_id`, so at most one row). -/
structure Store where
  sessions : List SessionRow
  stats : Option LearningStats
deriving DecidableEq, Repr

/-- The `SessionSummary` interface of learningDatabase.ts (lines 63-70):
the snapshot handed to `saveCompleteLearningSession`. -/
structure SessionSummary where
  difficulty : Difficulty
  questionsAttempted : Nat
  questionsCorrect : Nat
  maxStreak : Nat
  score : Nat
  startTime : Nat
deriving DecidableEq, Repr

/-- The argument object of `updateUserStatistics` (learningDatabase.ts,
lines 305-310); every field is optional in the TypeScript signature. -/
structure UpdatePayload where
  questions_attempted : Option Nat
  questions_correct : Option Nat
  current_streak : Option Nat
  difficulty : Option Difficulty
deriving DecidableEq, Repr

/-- `CASE WHEN NEW.difficulty = d THEN n ELSE 0 END`, the per-difficulty
bucketing expression of the SQL trigger function. -/
def diffCase (d target : Difficulty) (n : Nat) : Nat :=
  if d = target then n else 0

/-- The VALUES row inserted by `update_learning_statistics`
(learning_statistics.sql, lines 93-125) when the user has no statistics
row yet. `current_streak` is absent from the INSERT column list, so it
takes the table DEFAULT 0; so do the columns not listed. -/
def triggerInsertNew (row : SessionRow) : LearningStats where
  total_sessions := 1
  total_questions_attempted := row.questions_attempted
  total_questions_correct := row.questions_correct
  best_streak := row.max_streak
  current_streak := 0
  best_score := row.final_score
  total_time_spent_seconds := row.session_duration_seconds.getD 0
  easy_questions_correct := diffCase row.difficulty .easy row.questions_correct
  medium_questions_correct := diffCase row.difficulty .medium row.questions_correct
  hard_questions_correct := diffCase row.difficulty .hard row.questions_correct
  easy_questions_attempted := diffCase row.difficulty .easy row.questions_attempted
  medium_questions_attempted := diffCase row.difficulty .medium row.questions_attempted
  hard_questions_attempted := diffCase row.difficulty .hard row.questions_attempted
  first_session_date := row.session_start
  last_session_date := row.session_start

/-- The `ON CONFLICT (user_id) DO UPDATE SET` branch of
`update_learning_statistics` (learning_statistics.sql, lines 126-146):
sums the cumulative counters, takes GREATEST of the best fields, and
leaves `current_streak` and `first_session_date` untouched. -/
def triggerUpdateExisting (row : SessionRow) (ls : LearningStats) : LearningStats :=
  { ls with
    total_sessions := ls.total_sessions + 1
    total_questions_attempted := ls.total_questions_attempted + row.questions_attempted
    total_questions_correct := ls.total_questions_correct + row.questions_correct
    best_streak := max ls.best_streak row.max_streak
    best_score := max ls.best_score row.final_score
    total_time_spent_seconds :=
      ls.total_time_spent_seconds + row.session_duration_seconds.getD 0
    easy_questions_correct :=
      ls.easy_questions_correct + diffCase row.difficulty .easy row.questions_correct
    medium_questions_correct :=
      ls.medium_questions_correct + diffCase row.difficulty .medium row.questions_correct
    hard_questions_correct :=
      ls.hard_questions_correct + diffCase row.difficulty .hard row.questions_correct
    easy_questions_attempted :=
      ls.easy_questions_attempted + diffCase row.difficulty .easy row.questions_attempted
    medium_questions_attempted :=
      ls.medium_questions_attempted + diffCase row.difficulty .medium row.questions_attempted
    hard_questions_attempted :=
      ls.hard_questions_attempted + diffCase row.difficulty .hard row.questions_attempted
    last_session_date := row.session_start }

/-- The upsert performed by the SQL trigger function
`update_learning_statistics` (learning_statistics.sql, lines 89-150). -/
def update_learning_statistics (row : SessionRow) : Option LearningStats → LearningStats
  | none => triggerInsertNew row
  | some ls => triggerUpdateExisting row ls

/-- INSERT of a row into `learning_sessions`. The statistics trigger
`trigger_update_learning_statistics` is declared `AFTER UPDATE OF
session_end` (learning_statistics.sql, lines 152-157), so an INSERT —
even one that already carries a non-null `session_end` — never fires it:
the statistics row is left unchanged. -/
def insertSessionRow (row : SessionRow) (st : Store) : Store :=
  { st with sessions := st.sessions ++ [row] }

/-- Per-difficulty `<d>_questions_attempted` column selector. -/
def diffAttemptedOf (d : Difficulty) (s : LearningStats) : Nat :=
  match d with
  | .easy => s.easy_questions_attempted
  | .medium => s.medium_questions_attempted
  | .hard => s.hard_questions_attempted

/-- Per-difficulty `<d>_questions_correct` column selector. -/
def diffCorrectOf (d : Difficulty) (s : LearningStats) : Nat :=
  match d with
  | .easy => s.easy_questions_correct
  | .medium => s.medium_questions_correct
  | .hard => s.hard_questions_correct

/-- Write the `<d>_questions_attempted` column, the dynamic
`updateData[difficultyAttemptedField]` assignment of learningDatabase.ts. -/
def setDiffAttempted (d : Difficulty) (n : Nat) (s : LearningStats) : LearningStats :=
  match d with
  | .easy => { s with easy_questions_attempted := n }
  | .medium => { s with medium_questions_attempted := n }
  | .hard => { s with hard_questions_attempted := n }

/-- Write the `<d>_questions_correct` column, the dynamic
`updateData[difficultyCorrectField]` assignment of learningDatabase.ts. -/
def setDiffCorrect (d : Difficulty) (n : Nat) (s : LearningStats) : LearningStats :=
  match d with
  | .easy => { s with easy_questions_correct := n }
  | .medium => { s with medium_questions_correct := n }
  | .hard => { s with hard_questions_correct := n }

/-- The update branch of `updateUserStatistics` (learningDatabase.ts, lines
330-369): builds `updateData` and applies it to the existing row. Each
defined field of the payload is written as-is — the totals are SET to the
supplied values, not incremented — `best_streak` becomes
`Math.max(existing.best_streak, updates.current_streak)` when a streak is
supplied, `best_score` is never written, and the per-difficulty pair is
overwritten only when difficulty and both counters are all defined. -/
def clientUpdateExisting (now : Nat) (u : UpdatePayload) (ex : LearningStats) : LearningStats :=
  let s0 := { ex with last_session_date := now }
  let s1 := match u.questions_attempted with
    | some a => { s0 with total_questions_attempted := a }
    | none => s0
  let s2 := match u.questions_correct with
    | some c => { s1 with total_questions_correct := c }
    | none => s1
  let s3 := match u.current_streak with
    | some k => { s2 with current_streak := k, best_streak := max ex.best_streak k }
    | none => s2
  match u.difficulty, u.questions_correct, u.questions_attempted with
  | some d, some c, some a => setDiffCorrect d c (setDiffAttempted d a s3)
  | _, _, _ => s3

/-- The insert branch of `updateUserStatistics` (learningDatabase.ts, lines
370-398): the `insertData` object for a user with no statistics row.
Unlisted columns take the table DEFAULT 0. -/
def clientInsertNew (now : Nat) (u : UpdatePayload) : LearningStats :=
  let base : LearningStats := {
    total_sessions := 1
    total_questions_attempted := u.questions_attempted.getD 0
    total_questions_correct := u.questions_correct.getD 0
    best_streak := u.current_streak.getD 0
    current_streak := u.current_streak.getD 0
    best_score := u.questions_correct.getD 0
    total_time_spent_seconds := 0
    easy_questions_correct := 0
    medium_questions_correct := 0
    hard_questions_correct := 0
    easy_questions_attempted := 0
    medium_questions_attempted := 0
    hard_questions_attempted := 0
    first_session_date := now
    last_session_date := now }
  match u.difficulty with
  | some d =>
      setDiffCorrect d (u.questions_correct.getD 0)
        (setDiffAttempted d (u.questions_attempted.getD 0) base)
  | none => base

/-- `updateUserStatistics` (learningDatabase.ts, lines 305-406): the
incremental statistics write. Returns `false` without touching the store
when no authenticated user is present; otherwise updates the existing
statistics row or inserts a fresh one. -/
def updateUserStatistics (auth : Option Nat) (now : Nat) (u : UpdatePayload)
    (st : Store) : Bool × Store :=
  match auth with
  | none => (false, st)
  | some _ =>
    match st.stats with
    | some ex => (true, { st with stats := some (clientUpdateExisting now u ex) })
    | none => (true, { st with stats := some (clientInsertNew now u) })

/-- `saveCompleteLearningSession` (learningDatabase.ts, lines 244-298):
returns `false` without touching the store when no authenticated user is
present; otherwise INSERTs one complete `learning_sessions` row (with
`session_end` already set). Being an INSERT, it never fires the
statistics trigger (see `insertSessionRow`). -/
def saveCompleteLearningSession (auth : Option Nat) (now : Nat)
    (sm : SessionSummary) (st : Store) : Bool × Store :=
  match auth with
  | none => (false, st)
  | some uid =>
    let row : SessionRow := {
      user_id := uid
      session_start := sm.startTime
      session_end := some now
      difficulty := sm.difficulty
      questions_attempted := sm.questionsAttempted
      questions_correct := sm.questionsCorrect
      max_streak := sm.maxStreak
      final_score := sm.score
      session_duration_seconds := some (now - sm.startTime) }
    (true, insertSessionRow row st)

/-- `ROUND(q, 2)` on a non-negative Postgres NUMERIC: round half away from
zero to two decimal places, as applied by `get_user_learning_stats`. -/
def pgRound2 (q : ℚ) : ℚ :=
  (⌊q * 100 + 1/2⌋ : ℚ) / 100

/-- The `CASE WHEN attempted > 0 THEN ROUND((correct / attempted) * 100, 2)
ELSE 0 END` expression of `get_user_learning_stats`
(learning_statistics.sql, lines 182-205), shared by the overall and the
three per-difficulty accuracy columns. -/
def pctAccuracy (correct attempted : Nat) : ℚ :=
  if 0 < attempted then pgRound2 ((correct : ℚ) / (attempted : ℚ) * 100) else 0

/-- The row type returned by the SQL reader `get_user_learning_stats`
(learning_statistics.sql, lines 160-175), mirrored by the
`LearningStatistics` interface of learningDatabase.ts. -/
structure StatsView where
  total_sessions : Nat
  total_questions_attempted : Nat
  total_questions_correct : Nat
  accuracy_percentage : ℚ
  best_streak : Nat
  current_streak : Nat
  best_score : Nat
  total_time_spent_seconds : Nat
  easy_accuracy : ℚ
  medium_accuracy : ℚ
  hard_accuracy : ℚ
  first_session_date : Nat
  last_session_date : Nat
deriving DecidableEq, Repr

/-- The SELECT body of `get_user_learning_stats` (learning_statistics.sql,
lines 177-209) applied to the user's statistics row: copies the stored
columns and derives the four accuracy percentages. -/
def get_user_learning_stats (ls : LearningStats) : StatsView where
  total_sessions := ls.total_sessions
  total_questions_attempted := ls.total_questions_attempted
  total_questions_correct := ls.total_questions_correct
  accuracy_percentage := pctAccuracy ls.total_questions_correct ls.total_questions_attempted
  best_streak := ls.best_streak
  current_streak := ls.current_streak
  best_score := ls.best_score
  total_time_spent_seconds := ls.total_time_spent_seconds
  easy_accuracy := pctAccuracy ls.easy_questions_correct ls.easy_questions_attempted
  medium_accuracy := pctAccuracy ls.medium_questions_correct ls.medium_questions_attempted
  hard_accuracy := pctAccuracy ls.hard_questions_correct ls.hard_questions_attempted
  first_session_date := ls.first_session_date
  last_session_date := ls.last_session_date

/-- `getUserLearningStatistics` (learningDatabase.ts, lines 170-200):
`null` when no authenticated user is present, otherwise the RPC result of
`get_user_learning_stats`, which has a row exactly when the user has a
statistics row. -/
def getUserLearningStatistics (auth : Option Nat) (st : Store) : Option StatsView :=
  match auth with
  | none => none
  | some _ => st.stats.map get_user_learning_stats

/-!
The ReadScreen session state machine (screens/ReadScreen.tsx). The live
counters are the React state variables of the component; UI concerns
(current word, hint flags, animations) are outside the engine and are not
modelled.
-/

/-- The live counters of ReadScreen (ReadScreen.tsx, lines 34-49):
`score`, `streak`, `questionsAnswered` plus the session-tracking state
`sessionQuestionsCorrect`, `sessionMaxStreak`, `sessionStartTime` and the
selected `difficulty`. -/
structure ReadState where
  score : Nat
  streak : Nat
  questionsAnswered : Nat
  sessionQuestionsCorrect : Nat
  sessionMaxStreak : Nat
  sessionStartTime : Nat
  difficulty : Difficulty
deriving DecidableEq, Repr

/-- The `sessionDataRef` snapshot kept in sync by the effect at
ReadScreen.tsx lines 136-145: `questionsAttempted := questionsAnswered`,
`questionsCorrect := score` and — per the source comment "Use current
streak instead of sessionMaxStreak" — `maxStreak := streak`. -/
def sessionDataRef (s : ReadState) : SessionSummary where
  difficulty := s.difficulty
  questionsAttempted := s.questionsAnswered
  questionsCorrect := s.score
  maxStreak := s.streak
  score := s.score
  startTime := s.sessionStartTime

/-- `loadUserStatistics` (ReadScreen.tsx, lines 80-97): when the reader
returns a statistics row, seed the live counters from it (`score` from
total correct, `streak` from the stored current streak, `questionsAnswered`
from total attempted, `sessionMaxStreak` from the stored best streak);
otherwise leave the zero-initialised state untouched. -/
def loadUserStatistics (stats : Option StatsView) (s : ReadState) : ReadState :=
  match stats with
  | some v =>
    { s with
      score := v.total_questions_correct
      streak := v.current_streak
      questionsAnswered := v.total_questions_attempted
      sessionQuestionsCorrect := v.total_questions_correct
      sessionMaxStreak := v.best_streak }
  | none => s

/-- `checkAnswer` (ReadScreen.tsx, lines 296-335) restricted to its state
effect: a correct answer increments `score`, `streak` and
`questionsAnswered`; an incorrect answer resets `streak` to 0 and
increments `questionsAnswered`. No other state variable is written. -/
def checkAnswer (correct : Bool) (s : ReadState) : ReadState :=
  if correct then
    { s with score := s.score + 1, streak := s.streak + 1,
             questionsAnswered := s.questionsAnswered + 1 }
  else
    { s with streak := 0, questionsAnswered := s.questionsAnswered + 1 }

/-- `handleSkip` (ReadScreen.tsx, lines 357-363): resets `streak` and
increments `questionsAnswered`. -/
def handleSkip (s : ReadState) : ReadState :=
  { s with streak := 0, questionsAnswered := s.questionsAnswered + 1 }

/-- `handleShowAnswer` (ReadScreen.tsx, lines 348-352): resets `streak`
only; `questionsAnswered` is not incremented. -/
def handleShowAnswer (s : ReadState) : ReadState :=
  { s with streak := 0 }

/-- `startNewSession` (ReadScreen.tsx, lines 235-239): records a fresh
session start time and loads a new word; per the source comment, it does
not reset `score`, `streak` or `questionsAnswered` — they come from the
database. -/
def startNewSession (now : Nat) (s : ReadState) : ReadState :=
  { s with sessionStartTime := now }

/-- The unmount cleanup effect (ReadScreen.tsx, lines 222-230): when the
`sessionDataRef` snapshot has at least one attempted question, save the
final session through `saveCompleteLearningSession`. -/
def unmountCleanup (auth : Option Nat) (now : Nat) (s : ReadState) (st : Store) : Store :=
  if 0 < (sessionDataRef s).questionsAttempted then
    (saveCompleteLearningSession auth now (sessionDataRef s) st).2
  else st

/-- A UI event relevant to the statistics engine: answering (correctly or
not), skipping, revealing the answer, or showing a hint. -/
inductive UiEvent where
  | answer (correct : Bool)
  | skip
  | reveal
  | hint
deriving DecidableEq, Repr

/-- State effect of one UI event, dispatching to the ReadScreen handlers.
`handleShowHint` (ReadScreen.tsx, lines 340-343) touches none of the
statistics state. -/
def applyEvent (e : UiEvent) (s : ReadState) : ReadState :=
  match e with
  | .answer c => checkAnswer c s
  | .skip => handleSkip s
  | .reveal => handleShowAnswer s
  | .hint => s

/-- The snapshot sent by the debounced-save effect (ReadScreen.tsx, lines
206-213): the full current counters tagged with the active difficulty. -/
def effectPayload (s : ReadState) : UpdatePayload where
  questions_attempted := some s.questionsAnswered
  questions_correct := some s.score
  current_streak := some s.streak
  difficulty := some s.difficulty

/-- Whether the dependency array `[score, streak, questionsAnswered]` of
the debounced-save effect (ReadScreen.tsx, line 217) changed, i.e. whether
the effect re-runs after the event. -/
def depsChanged (a b : ReadState) : Bool :=
  a.score != b.score || a.streak != b.streak || a.questionsAnswered != b.questionsAnswered

/-- One UI event followed by the debounced-save effect (ReadScreen.tsx,
lines 195-217): the effect re-runs only when its dependencies changed, and
schedules `updateUserStatistics` only under the guard
`questionsAnswered > 0`. The returned list holds the scheduled write, if
any. -/
def stepEvent (s : ReadState) (e : UiEvent) : ReadState × List UpdatePayload :=
  let s' := applyEvent e s
  if depsChanged s s' && (s'.questionsAnswered != 0) then (s', [effectPayload s'])
  else (s', [])

/-- Run a list of UI events from a state, collecting every scheduled
debounced write in order. -/
def runEvents (s : ReadState) : List UiEvent → ReadState × List UpdatePayload
  | [] => (s, [])
  | e :: es =>
    let p := stepEvent s e
    let r := runEvents p.1 es
    (r.1, p.2 ++ r.2)

/-- A merge step applied to an existing Aggregate row: either the
client-side incremental write (`updateUserStatistics`, update branch) or
the SQL trigger merge (`update_learning_statistics`, ON CONFLICT branch). -/
inductive MergeOp where
  | client (now : Nat) (u : UpdatePayload)
  | trigger (row : SessionRow)

/-- Apply one merge step to an existing Aggregate row. -/
def applyMerge (s : LearningStats) : MergeOp → LearningStats
  | .client now u => clientUpdateExisting now u s
  | .trigger row => triggerUpdateExisting row s

/-! Concrete sample values used in counterexamples and witnesses. -/

/-- Sample Aggregate row: 3 sessions, 10 attempted, 6 correct, best streak
4, current streak 2, best score 5. -/
def aggSample : LearningStats := ⟨3, 10, 6, 4, 2, 5, 300, 2, 2, 2, 4, 3, 3, 11, 22⟩

/-- Sample durable store holding `aggSample` and no history rows yet. -/
def storeSample : Store := ⟨[], some aggSample⟩

/-- Sample live session state with 4 attempted questions. -/
def endState : ReadState := ⟨3, 0, 4, 0, 0, 100, .easy⟩

/-- Sample incremental snapshot: 1 attempted, 7 correct, streak 0, easy. -/
def snapshotSmall : UpdatePayload := ⟨some 1, some 7, some 0, some .easy⟩

/-- Sample reader row: the Aggregate of the restart-durability test,
attempted 10, correct 7, current streak 3. -/
def viewSeed : StatsView := ⟨2, 10, 7, 70, 5, 3, 4, 60, 0, 0, 0, 11, 22⟩

/-- Zero-initialised ReadScreen state. -/
def readInit : ReadState := ⟨0, 0, 0, 0, 0, 0, .easy⟩

/-- Aggregate row with attempted = 3, correct = 1. -/
def aggThird : LearningStats := ⟨1, 3, 1, 0, 0, 0, 0, 0, 0, 0, 0, 0, 0, 0, 0⟩

/-- Aggregate row with attempted = 4, correct = 3. -/
def agg43 : LearningStats := ⟨1, 4, 3, 0, 0, 0, 0, 0, 0, 0, 0, 0, 0, 0, 0⟩

/-- Aggregate row with no attempts at all. -/
def aggZero : LearningStats := ⟨0, 0, 0, 0, 0, 0, 0, 0, 0, 0, 0, 0, 0, 0, 0⟩

/-!
Theorems settling the claims.
-/

/-- Claim C3: for every sequence of recorded answers, the session
snapshot's `maxStreak` (the code's `maxStreakThisSession`) is at least the
live `streak` (`currentStreak`) after every call — the `sessionDataRef`
effect maintains it equal to the live streak, so the bound holds with
equality at every observation point. -/
theorem sessionMaxStreak_ge_currentStreak (s : ReadState) (calls : List Bool) :
    (calls.foldl (fun st c => checkAnswer c st) s).streak ≤
      (sessionDataRef (calls.foldl (fun st c => checkAnswer c st) s)).maxStreak :=
  Nat.le_refl _

/-- Claim C4: from a session state with `streak = 5` and
`sessionMaxStreak = 5`, recording an incorrect answer resets the live
streak to 0 and leaves `sessionMaxStreak` at 5 (`checkAnswer` never
writes that state variable). -/
theorem recordIncorrect_resets_streak_keeps_max (s : ReadState)
    (_h1 : s.streak = 5) (h2 : s.sessionMaxStreak = 5) :
    (checkAnswer false s).streak = 0 ∧ (checkAnswer false s).sessionMaxStreak = 5 := by
  exact ⟨by simp [checkAnswer], by simp [checkAnswer, h2]⟩

/-- Witness for claim C4 at a concrete session state. -/
theorem recordIncorrect_resets_streak_keeps_max_witness :
    (checkAnswer false ⟨7, 5, 9, 0, 5, 0, .easy⟩).streak = 0 ∧
    (checkAnswer false ⟨7, 5, 9, 0, 5, 0, .easy⟩).sessionMaxStreak = 5 :=
  recordIncorrect_resets_streak_keeps_max ⟨7, 5, 9, 0, 5, 0, .easy⟩ rfl rfl

/-- Claim C5: loading an Aggregate with attempted 10, correct 7 and
current streak 3 seeds the live counters to exactly `score = 7`,
`streak = 3`, `questionsAnswered = 10`. -/
theorem loadUserStatistics_seeds_exact (s : ReadState) (v : StatsView)
    (ha : v.total_questions_attempted = 10)
    (hc : v.total_questions_correct = 7)
    (hk : v.current_streak = 3) :
    (loadUserStatistics (some v) s).score = 7 ∧
    (loadUserStatistics (some v) s).streak = 3 ∧
    (loadUserStatistics (some v) s).questionsAnswered = 10 := by
  simp [loadUserStatistics, ha, hc, hk]

/-- Witness for claim C5 at the concrete reader row `viewSeed`. -/
theorem loadUserStatistics_seeds_exact_witness :
    (loadUserStatistics (some viewSeed) readInit).score = 7 ∧
    (loadUserStatistics (some viewSeed) readInit).streak = 3 ∧
    (loadUserStatistics (some viewSeed) readInit).questionsAnswered = 10 :=
  loadUserStatistics_seeds_exact readInit viewSeed rfl rfl rfl

/-- Claim C6, counterexample: after seeding from the Aggregate
(attempted 10, correct 7, current streak 3), starting a new session leaves
`questionsAnswered` at 10 — the new session's counters are not zero. -/
theorem startNewSession_counters_not_zero :
    (startNewSession 1000 (loadUserStatistics (some viewSeed) readInit)).questionsAnswered
        = 10 ∧
    ¬ ((startNewSession 1000
        (loadUserStatistics (some viewSeed) readInit)).questionsAnswered = 0) := by
  exact ⟨rfl, by decide⟩

/-- Claim C6 amended: starting a new session resets only the session
start time; every live counter keeps the value previously seeded from the
durable Aggregate (counters are zero only when no Aggregate row exists). -/
theorem startNewSession_preserves_counters (now : Nat) (s : ReadState) :
    (startNewSession now s).score = s.score ∧
    (startNewSession now s).streak = s.streak ∧
    (startNewSession now s).questionsAnswered = s.questionsAnswered ∧
    (startNewSession now s).sessionQuestionsCorrect = s.sessionQuestionsCorrect ∧
    (startNewSession now s).sessionMaxStreak = s.sessionMaxStreak ∧
    (startNewSession now s).sessionStartTime = now :=
  ⟨rfl, rfl, rfl, rfl, rfl, rfl⟩

/-- Claim C9: with no authenticated user, both persistence operations
return `false` and leave the durable store untouched. -/
theorem unauthenticated_persistence_noop (now : Nat) (u : UpdatePayload)
    (sm : SessionSummary) (st : Store) :
    updateUserStatistics none now u st = (false, st) ∧
    saveCompleteLearningSession none now sm st = (false, st) :=
  ⟨rfl, rfl⟩

/-- Claim C1, counterexample: ending a session twice with the same data is
not idempotent and performs no merge: one end appends one history row and
leaves the Aggregate exactly as it was (the statistics trigger is declared
AFTER UPDATE OF `session_end` and never fires on this INSERT), and a
second end appends a second row, so the store differs from the
once-ended store. -/
theorem endSession_not_idempotent :
    (unmountCleanup (some 1) 500 endState storeSample).sessions.length = 1 ∧
    (unmountCleanup (some 1) 500 endState
        (unmountCleanup (some 1) 500 endState storeSample)).sessions.length = 2 ∧
    (unmountCleanup (some 1) 500 endState storeSample).stats = storeSample.stats ∧
    unmountCleanup (some 1) 500 endState
        (unmountCleanup (some 1) 500 endState storeSample) ≠
      unmountCleanup (some 1) 500 endState storeSample := by
  refine ⟨rfl, rfl, rfl, ?_⟩
  decide

/-- Claim C1 amended: ending a session (teardown with at least one
attempted question, with an authenticated user) appends exactly one
SessionHistoryRecord per call and leaves the Aggregate unchanged — the
merge trigger only fires on UPDATE of `session_end`, never on this
insert-only path — so calling it again appends a further record rather
than being idempotent. -/
theorem unmountCleanup_appends_one_record (uid now : Nat) (s : ReadState) (st : Store)
    (h : 0 < s.questionsAnswered) :
    (unmountCleanup (some uid) now s st).sessions.length = st.sessions.length + 1 ∧
    (unmountCleanup (some uid) now s st).stats = st.stats := by
  have hq : 0 < (sessionDataRef s).questionsAttempted := h
  constructor <;>
    simp [unmountCleanup, hq, saveCompleteLearningSession, insertSessionRow]

/-- Witness for the amended claim C1 at a concrete session and store. -/
theorem unmountCleanup_appends_one_record_witness :
    (unmountCleanup (some 1) 500 endState storeSample).sessions.length =
      storeSample.sessions.length + 1 ∧
    (unmountCleanup (some 1) 500 endState storeSample).stats = storeSample.stats :=
  unmountCleanup_appends_one_record 1 500 endState storeSample (by decide)

/-- Claim C2, counterexample: applied to an existing Aggregate with
`total_questions_attempted = 10` and `best_score = 5`, the incremental
write with a snapshot carrying attempted 1 and correct 7 SETS
`total_questions_attempted` to 1 — not to 10 + 1 = 11 — and leaves
`best_score` at 5 instead of raising it. -/
theorem updateUserStatistics_overwrites_not_increments :
    ((updateUserStatistics (some 1) 99 snapshotSmall storeSample).2.stats.map
        LearningStats.total_questions_attempted) = some 1 ∧
    ¬ (((updateUserStatistics (some 1) 99 snapshotSmall storeSample).2.stats.map
        LearningStats.total_questions_attempted) = some 11) ∧
    ((updateUserStatistics (some 1) 99 snapshotSmall storeSample).2.stats.map
        LearningStats.best_score) = some 5 := by
  refine ⟨rfl, ?_, rfl⟩
  decide

/-- Claim C2 amended: the incremental merge with a full snapshot
overwrites the cumulative counters with the snapshot's running totals
(the snapshot carries totals, not deltas), overwrites `current_streak`,
raises `best_streak` to the max of its old value and the snapshot streak,
leaves `best_score` and `total_sessions` untouched, and overwrites the
per-difficulty attempted/correct pair for the supplied difficulty only;
on first call it creates the Aggregate from the snapshot with
`total_sessions = 1`, `best_streak` equal to the snapshot streak and
`best_score` equal to the snapshot's correct count. -/
theorem updateUserStatistics_spec (uid now a c k : Nat) (d : Difficulty)
    (ss : List SessionRow) (ex : LearningStats) :
    (∃ u, (updateUserStatistics (some uid) now ⟨some a, some c, some k, some d⟩
          ⟨ss, some ex⟩).2 = ⟨ss, some u⟩ ∧
      u.total_questions_attempted = a ∧
      u.total_questions_correct = c ∧
      u.current_streak = k ∧
      u.best_streak = max ex.best_streak k ∧
      u.best_score = ex.best_score ∧
      u.total_sessions = ex.total_sessions ∧
      u.easy_questions_attempted =
        (if d = .easy then a else ex.easy_questions_attempted) ∧
      u.medium_questions_attempted =
        (if d = .medium then a else ex.medium_questions_attempted) ∧
      u.hard_questions_attempted =
        (if d = .hard then a else ex.hard_questions_attempted) ∧
      u.easy_questions_correct =
        (if d = .easy then c else ex.easy_questions_correct) ∧
      u.medium_questions_correct =
        (if d = .medium then c else ex.medium_questions_correct) ∧
      u.hard_questions_correct =
        (if d = .hard then c else ex.hard_questions_correct)) ∧
    (∃ v, (updateUserStatistics (some uid) now ⟨some a, some c, some k, some d⟩
          ⟨ss, none⟩).2 = ⟨ss, some v⟩ ∧
      v.total_sessions = 1 ∧
      v.total_questions_attempted = a ∧
      v.total_questions_correct = c ∧
      v.current_streak = k ∧
      v.best_streak = k ∧
      v.best_score = c) := by
  constructor
  · refine ⟨_, rfl, ?_⟩
    cases d <;>
      simp [updateUserStatistics, clientUpdateExisting, setDiffAttempted, setDiffCorrect]
  · refine ⟨_, rfl, ?_⟩
    cases d <;>
      simp [updateUserStatistics, clientInsertNew, setDiffAttempted, setDiffCorrect]

/-- Each merge step applied to an existing Aggregate row never decreases
`best_streak` or `best_score`: the client write takes `max` for
`best_streak` and never writes `best_score`; the SQL trigger takes
GREATEST for both. -/
theorem applyMerge_best_mono (s : LearningStats) (op : MergeOp) :
    s.best_streak ≤ (applyMerge s op).best_streak ∧
    s.best_score ≤ (applyMerge s op).best_score := by
  cases op with
  | trigger row =>
    constructor <;> simp [applyMerge, triggerUpdateExisting]
  | client now u =>
    obtain ⟨qa, qc, cs, di⟩ := u
    constructor <;>
      rcases qa with _ | a <;> rcases qc with _ | c <;> rcases cs with _ | k <;>
        rcases di with _ | d <;>
          first
          | (cases d <;>
              simp [applyMerge, clientUpdateExisting, setDiffAttempted, setDiffCorrect])
          | simp [applyMerge, clientUpdateExisting, setDiffAttempted, setDiffCorrect]

/-- Claim C7: across any sequence of merge steps applied to an Aggregate
row — client incremental writes and SQL trigger merges, in any order —
`best_streak` and `best_score` never decrease. -/
theorem merge_sequence_best_monotone (a : LearningStats) (ops : List MergeOp) :
    a.best_streak ≤ (ops.foldl applyMerge a).best_streak ∧
    a.best_score ≤ (ops.foldl applyMerge a).best_score := by
  induction ops generalizing a with
  | nil => exact ⟨Nat.le_refl _, Nat.le_refl _⟩
  | cons op ops ih =>
    have h1 := applyMerge_best_mono a op
    have h2 := ih (applyMerge a op)
    exact ⟨Nat.le_trans h1.1 h2.1, Nat.le_trans h1.2 h2.2⟩

/-- Claim C8, counterexample: with attempted = 3 and correct = 1 the
derived read returns the two-decimal rounding 33.33, which differs from
the exact quotient (1/3)·100 the claim's formula prescribes. -/
theorem accuracy_not_exact_quotient :
    (get_user_learning_stats aggThird).accuracy_percentage = 3333/100 ∧
    ¬ ((get_user_learning_stats aggThird).accuracy_percentage = (1 : ℚ)/3 * 100) := by
  have hacc : (get_user_learning_stats aggThird).accuracy_percentage = 3333/100 := by
    show pctAccuracy 1 3 = 3333/100
    norm_num [pctAccuracy, pgRound2]
  refine ⟨hacc, ?_⟩
  rw [hacc]
  norm_num

/-- Claim C8 amended: the derived read computes each accuracy percentage
as correct/attempted·100 rounded to two decimal places, and 0 when the
corresponding attempted count is 0; the same rule applies to the overall
and to each per-difficulty accuracy. (The claim's instances — attempted 0
yields 0, and attempted 4 / correct 3 yields 75 — hold; see the
witness.) -/
theorem accuracy_spec (ls : LearningStats) :
    (ls.total_questions_attempted = 0 →
      (get_user_learning_stats ls).accuracy_percentage = 0) ∧
    (0 < ls.total_questions_attempted →
      (get_user_learning_stats ls).accuracy_percentage =
        pgRound2 ((ls.total_questions_correct : ℚ) / ls.total_questions_attempted * 100)) ∧
    (ls.easy_questions_attempted = 0 →
      (get_user_learning_stats ls).easy_accuracy = 0) ∧
    (0 < ls.easy_questions_attempted →
      (get_user_learning_stats ls).easy_accuracy =
        pgRound2 ((ls.easy_questions_correct : ℚ) / ls.easy_questions_attempted * 100)) ∧
    (ls.medium_questions_attempted = 0 →
      (get_user_learning_stats ls).medium_accuracy = 0) ∧
    (0 < ls.medium_questions_attempted →
      (get_user_learning_stats ls).medium_accuracy =
        pgRound2 ((ls.medium_questions_correct : ℚ) / ls.medium_questions_attempted * 100)) ∧
    (ls.hard_questions_attempted = 0 →
      (get_user_learning_stats ls).hard_accuracy = 0) ∧
    (0 < ls.hard_questions_attempted →
      (get_user_learning_stats ls).hard_accuracy =
        pgRound2 ((ls.hard_questions_correct : ℚ) / ls.hard_questions_attempted * 100)) := by
  refine ⟨?_, ?_, ?_, ?_, ?_, ?_, ?_, ?_⟩ <;> intro h <;>
    simp [get_user_learning_stats, pctAccuracy, h, Nat.pos_iff_ne_zero]

/-- Witness for the amended claim C8: attempted 4 / correct 3 yields
exactly 75, and an Aggregate with no attempts yields 0. -/
theorem accuracy_spec_witness :
    (get_user_learning_stats agg43).accuracy_percentage = 75 ∧
    (get_user_learning_stats aggZero).accuracy_percentage = 0 := by
  have h75 := (accuracy_spec agg43).2.1 (by norm_num [agg43])
  have h0 := (accuracy_spec aggZero).1 rfl
  refine ⟨?_, h0⟩
  rw [h75]
  have hfl : ⌊(7500 : ℚ) + 1/2⌋ = 7500 := by
    rw [Int.floor_eq_iff]
    constructor <;> norm_num
  show pgRound2 ((agg43.total_questions_correct : ℚ) /
      agg43.total_questions_attempted * 100) = 75
  rw [show ((agg43.total_questions_correct : ℚ) /
      agg43.total_questions_attempted * 100) = 75 by norm_num [agg43]]
  rw [pgRound2, show (75 : ℚ) * 100 + 1/2 = (7500 : ℚ) + 1/2 by norm_num, hfl]
  norm_num

/-- Claim C10: starting from a live state with `questionsAnswered = 0`, a
trace consisting only of reveal-answer and show-hint events — including
ones that reset a non-zero streak — never schedules a debounced
persistence write; since the trace is arbitrary, instantiating it at any
prefix of a session shows the first incremental write can only follow the
first skip or recorded answer. -/
theorem no_write_while_zero_attempted (s : ReadState) (es : List UiEvent)
    (h0 : s.questionsAnswered = 0)
    (hev : ∀ e ∈ es, e = UiEvent.reveal ∨ e = UiEvent.hint) :
    (runEvents s es).2 = [] := by
  induction es generalizing s with
  | nil => rfl
  | cons e es ih =>
    have he : e = UiEvent.reveal ∨ e = UiEvent.hint := hev e (List.mem_cons_self e es)
    have hq : (applyEvent e s).questionsAnswered = 0 := by
      rcases he with h | h <;> subst h <;> simpa [applyEvent, handleShowAnswer]
    have hstep : stepEvent s e = (applyEvent e s, []) := by
      simp [stepEvent, hq]
    have ih2 := ih (applyEvent e s) hq (fun x hx => hev x (List.mem_cons_of_mem e hx))
    simp [runEvents, hstep, ih2]

/-- Witness for claim C10: from a zero-attempt state carrying a live
streak of 4, revealing the answer (which resets the streak) and showing a
hint schedule no write. -/
theorem no_write_while_zero_attempted_witness :
    (runEvents ⟨0, 4, 0, 0, 0, 0, .easy⟩
        [UiEvent.reveal, UiEvent.hint, UiEvent.reveal]).2 = [] :=
  no_write_while_zero_attempted ⟨0, 4, 0, 0, 0, 0, .easy⟩
    [UiEvent.reveal, UiEvent.hint, UiEvent.reveal] rfl (by decide)

end Aurebesh
